import Mathlib

/-!
Verification development for the bsc_streamer event-routing core.

The Rust sources are shallowly embedded: provider (RPC) responses are passed in as
explicit environment records holding the successful call results, machine integers
(U256, u64, u8) become Nat, the f64 price arithmetic is modelled over the exact
rationals the decimal strings denote, and the `Option::unwrap` / slice-index /
`U256::from_big_endian` panics of the decoders are reified as a distinguished
outcome constructor.
-/

namespace BscStreamer

/-- 20-byte account identifier, modelled as a natural number. -/
abbrev Address := Nat

/-- 32-byte word (topics, hashes, U256 values), modelled as a natural number. -/
abbrev Word := Nat

/-- `Address::from(h256)` keeps the low 20 bytes of the 32-byte word. -/
def addrOfWord (w : Word) : Address := w % (2 ^ 160)

/-- Big-endian integer value of a byte list (`U256::from_big_endian`). -/
def beBytes (bs : List Nat) : Nat := bs.foldl (fun acc b => acc * 256 + b % 256) 0

/-- The 32-byte word stored at byte offset `off` of a log data payload. -/
def wordAt (data : List Nat) (off : Nat) : Nat := beBytes ((data.drop off).take 32)

/-- types.rs `Platform`. -/
inductive Platform where
  | PancakeSwap
  | FourMemeBondingCurve
  deriving DecidableEq, Repr

/-- types.rs `TradeType`. -/
inductive TradeType where
  | Buy
  | Sell
  deriving DecidableEq, Repr

/-- types.rs `TokenInfo` (one side of a swap event).  The Rust `amount` field is
the decimal string `format_units(raw, decimals)`; we keep the raw integer
amount, which together with `decimals` determines that string exactly (its
denoted rational is `scaleAmount amount decimals`). -/
structure TokenInfo where
  address : Address
  symbol : String
  amount : Nat
  decimals : Nat
  deriving DecidableEq

/-- types.rs `PriceInfo`; the human-readable `display` string is not modelled. -/
structure PriceInfo where
  value : ℚ
  base_token : String
  deriving DecidableEq

/-- types.rs `SwapEvent`.  The RFC3339 `timestamp` string is modelled by the epoch
milliseconds it is rendered from (`block.timestamp * 1000`). -/
structure SwapEvent where
  transaction_hash : Word
  block_number : Nat
  timestamp : Option Nat
  platform : Platform
  trade_type : TradeType
  token : TokenInfo
  base_token : TokenInfo
  price : PriceInfo
  sender : Address
  recipient : Address
  pair_address : Option Address
  bonding_curve_address : Option Address
  deriving DecidableEq

/-- `PairInfo` as used by pair_finder.rs and streamer.rs (with the `is_v3` flag). -/
structure PairInfo where
  pair_address : Address
  token : Address
  base_token : Address
  base_token_symbol : String
  is_v3 : Bool
  deriving DecidableEq

/-- token_info.rs `TokenMetadata`. -/
structure TokenMetadata where
  name : String
  symbol : String
  decimals : Nat
  deriving DecidableEq

/-- `ethers::types::Log`, restricted to the fields the decoders read. -/
structure Log where
  address : Address
  topics : List Word
  data : List Nat
  block_number : Option Nat
  transaction_hash : Option Word
  deriving DecidableEq

/-- The runtime panics the decoders can hit. -/
inductive PanicKind where
  | indexTopics
  | unwrapBlockNumber
  | unwrapTxHash
  | fromBigEndian
  deriving DecidableEq, Repr

/-- Outcome of running a fallible Rust function: `Ok`, `Err`, or a panic. -/
inductive RunOut (α : Type) where
  | ok (value : α)
  | err (msg : String)
  | panicked (kind : PanicKind)
  deriving DecidableEq

def RunOut.isPanicked {α : Type} : RunOut α → Bool
  | .panicked _ => true
  | _ => false

/-- streamer.rs `SWAP_V2_TOPIC`. -/
def SWAP_V2_TOPIC : Word :=
  0xd78ad95fa46c994b6551d0da85fc275fe613ce37657fb8d5e3d130840159d822

/-- streamer.rs `SWAP_V3_TOPIC` (PancakeSwap V3 variant with protocol fees). -/
def SWAP_V3_TOPIC : Word :=
  0x19b47279256b2a23a1665c810c8d55a1758940ee09377d4f8d26497a3577dc83

/-- streamer.rs `TRANSFER_TOPIC`. -/
def TRANSFER_TOPIC : Word :=
  0xddf252ad1be2c89b69c2b068fc378daa952ba7f163c4a11628f55a4df523b3ef

/-- streamer.rs `PAIR_CREATED_TOPIC`. -/
def PAIR_CREATED_TOPIC : Word :=
  0x0d3648bd0f6ba80134a33ba9275ac585d9d315f0ad8355cddefde31afa28d0e9

/-- `format_units(raw, decimals)` read back as an exact rational. -/
def scaleAmount (raw : Nat) (decimals : Nat) : ℚ := (raw : ℚ) / (((10 ^ decimals : ℕ)) : ℚ)

/-- Trade-type / amount / decimals selection of swap_parser.rs lines 73 to 111. -/
structure SwapSides where
  trade_type : TradeType
  token_amount : Nat
  base_amount : Nat
  token_decimals : Nat
  base_decimals : Nat
  deriving DecidableEq

def selectSides (is_token0_target : Bool)
    (amount0_in amount1_in amount0_out amount1_out d0 d1 : Nat) : SwapSides :=
  if is_token0_target then
    if 0 < amount0_out then ⟨.Buy, amount0_out, amount1_in, d0, d1⟩
    else ⟨.Sell, amount0_in, amount1_out, d0, d1⟩
  else
    if 0 < amount1_out then ⟨.Buy, amount1_out, amount0_in, d1, d0⟩
    else ⟨.Sell, amount1_in, amount0_out, d1, d0⟩

/-- Successful provider responses consumed by `parse_swap_event`: the pair
contract's `token0()` and `token1()`, their cached metadata, and the timestamp of
the containing block when `get_block` finds it. -/
structure V2Env where
  token0 : Address
  token1 : Address
  token0Info : TokenMetadata
  token1Info : TokenMetadata
  blockTimestamp : Option Nat
  deriving DecidableEq

/-- swap_parser.rs `parse_swap_event`.  The `event.parse_log` library call succeeds
exactly when the log has the three topics of the V2 `Swap` event (signature topic
plus the two indexed addresses) and a data payload holding the four uint256
amounts; the four amounts are the words at data offsets 0, 32, 64, 96.  The
`.unwrap()` calls on `block_number` (line 126) and `transaction_hash` (line 136)
are reified as panics, in source order. -/
def parse_swap_event (env : V2Env) (log : Log) (pair_info : PairInfo) :
    RunOut SwapEvent :=
  if log.topics.length = 3 ∧ log.topics.headD 0 = SWAP_V2_TOPIC ∧ 128 ≤ log.data.length then
    let amount0_in := wordAt log.data 0
    let amount1_in := wordAt log.data 32
    let amount0_out := wordAt log.data 64
    let amount1_out := wordAt log.data 96
    let to_addr := addrOfWord (log.topics.getD 2 0)
    let sender := addrOfWord (log.topics.getD 1 0)
    let is_token0_target := env.token0 == pair_info.token
    let s := selectSides is_token0_target amount0_in amount1_in amount0_out amount1_out
      env.token0Info.decimals env.token1Info.decimals
    -- The source parses the `format_units` decimal strings back into f64 and
    -- tests `token_amount_f64 > 0.0`.  For a u8 `decimals` field the parsed
    -- double of `format_units(raw, decimals)` is positive exactly when `raw`
    -- is (the value is at least 10^-255, far above the f64 underflow bound),
    -- so the test is modelled on the raw integer amount.
    let price : ℚ :=
      if 0 < s.token_amount then
        scaleAmount s.base_amount s.base_decimals / scaleAmount s.token_amount s.token_decimals
      else 0
    match log.block_number with
    | none => .panicked .unwrapBlockNumber
    | some bn =>
      match log.transaction_hash with
      | none => .panicked .unwrapTxHash
      | some txh =>
        .ok
          { transaction_hash := txh
            block_number := bn
            timestamp := env.blockTimestamp.map (· * 1000)
            platform := .PancakeSwap
            trade_type := s.trade_type
            token :=
              { address := pair_info.token
                symbol := if is_token0_target then env.token0Info.symbol else env.token1Info.symbol
                amount := s.token_amount
                decimals := s.token_decimals }
            base_token :=
              { address := pair_info.base_token
                symbol := pair_info.base_token_symbol
                amount := s.base_amount
                decimals := s.base_decimals }
            price := { value := price, base_token := pair_info.base_token_symbol }
            sender := sender
            recipient := to_addr
            pair_address := some pair_info.pair_address
            bonding_curve_address := none }
  else .err "parse_log"

/-- One log of a transaction receipt, as read by the bonding-curve recovery scan. -/
structure ReceiptLog where
  address : Address
  data : List Nat
  deriving DecidableEq

/-- Successful provider responses consumed by `parse_bonding_curve_event`: the
watched token's cached metadata, the top-level `value` of the transaction when
`get_transaction` finds it, the receipt's logs when `get_transaction_receipt`
finds it, and the containing block's timestamp. -/
structure CurveEnv where
  tokenInfo : TokenMetadata
  txValue : Option Nat
  receipt : Option (List ReceiptLog)
  blockTimestamp : Option Nat
  deriving DecidableEq

/-- The sanity interval of the receipt-scan heuristic: `0 < v < 1000 * 10^18`. -/
abbrev inSaneRange (v : Nat) : Prop := 0 < v ∧ v < 1000 * 10 ^ 18

/-- The receipt-log scan shared by the Buy and Sell branches of
`parse_bonding_curve_event`: for each log emitted by the launchpad, try the word
at offset 128 (when the payload has at least 160 bytes), then the word at offset
64 (at least 96 bytes); take the first value inside the sanity interval, else 0. -/
def scanReceiptLogs (bonding_curve_address : Address) : List ReceiptLog → Nat
  | [] => 0
  | l :: ls =>
    if l.address = bonding_curve_address then
      if 160 ≤ l.data.length ∧ inSaneRange (wordAt l.data 128) then wordAt l.data 128
      else if 96 ≤ l.data.length ∧ inSaneRange (wordAt l.data 64) then wordAt l.data 64
      else scanReceiptLogs bonding_curve_address ls
    else scanReceiptLogs bonding_curve_address ls

/-- Base-side amount recovery for a Buy: the transaction's top-level `value` when
non-zero (a missing transaction counts as value 0 via `unwrap_or_default`), else
the receipt scan, else 0 when the receipt is missing. -/
def buyBnbAmount (env : CurveEnv) (bonding_curve_address : Address) : Nat :=
  let tx_value := env.txValue.getD 0
  if tx_value = 0 then
    match env.receipt with
    | some logs => scanReceiptLogs bonding_curve_address logs
    | none => 0
  else tx_value

/-- Base-side amount recovery for a Sell: always the receipt scan. -/
def sellBnbAmount (env : CurveEnv) (bonding_curve_address : Address) : Nat :=
  match env.receipt with
  | some logs => scanReceiptLogs bonding_curve_address logs
  | none => 0

/-- swap_parser.rs `parse_bonding_curve_event`.  `log.topics[1]` and
`log.topics[2]` are indexed unconditionally (panic when fewer than three topics),
`U256::from_big_endian(&log.data)` panics when the payload exceeds 32 bytes, and
the `transaction_hash` / `block_number` unwraps panic when the log is pending;
a Transfer touching neither side of the launchpad yields `Ok(None)`. -/
def parse_bonding_curve_event (env : CurveEnv) (log : Log)
    (token_address bonding_curve_address : Address) : RunOut (Option SwapEvent) :=
  if log.topics.length < 3 then .panicked .indexTopics
  else if 32 < log.data.length then .panicked .fromBigEndian
  else
    let from_addr := addrOfWord (log.topics.getD 1 0)
    let to_addr := addrOfWord (log.topics.getD 2 0)
    let value := beBytes log.data
    match (if from_addr = bonding_curve_address then some TradeType.Buy
           else if to_addr = bonding_curve_address then some TradeType.Sell
           else none) with
    | none => .ok none
    | some trade_type =>
      match log.transaction_hash with
      | none => .panicked .unwrapTxHash
      | some txh =>
        let bnb_amount :=
          if trade_type = TradeType.Buy then buyBnbAmount env bonding_curve_address
          else sellBnbAmount env bonding_curve_address
        -- As in `parse_swap_event`, the `token_amount_f64 > 0.0` test on the
        -- parsed decimal string is modelled on the raw integer amount.
        let price : ℚ :=
          if 0 < value then
            scaleAmount bnb_amount 18 / scaleAmount value env.tokenInfo.decimals
          else 0
        match log.block_number with
        | none => .panicked .unwrapBlockNumber
        | some bn =>
          .ok (some
            { transaction_hash := txh
              block_number := bn
              timestamp := env.blockTimestamp.map (· * 1000)
              platform := .FourMemeBondingCurve
              trade_type := trade_type
              token :=
                { address := token_address
                  symbol := env.tokenInfo.symbol
                  amount := value
                  decimals := env.tokenInfo.decimals }
              base_token :=
                { address := 0
                  symbol := "BNB"
                  amount := bnb_amount
                  decimals := 18 }
              price := { value := price, base_token := "BNB" }
              sender := from_addr
              recipient := to_addr
              pair_address := none
              bonding_curve_address := some bonding_curve_address })

/-! ### Pair finder (pair_finder.rs) -/

/-- config.rs `get_base_tokens()`: the static (symbol, address) base list. -/
def get_base_tokens : List (String × Address) :=
  [ ("WBNB", 0xbb4CdB9CBd36B01bD1cBaEBF2De08d9173bc095c)
  , ("BUSD", 0xe9e7CEA3DedcA5984780Bafc599bD69ADd087D56)
  , ("USDT", 0x55d398326f99059fF775485246999027B3197955)
  , ("USDC", 0x8AC76a51cc950d9822D68b83fE1Ad97B32Cd580d)
  , ("ETH", 0x2170Ed0880ac9A755fd29B2688956BD959F933F8)
  , ("BTCB", 0x7130d2A12B9BCbFAe4f2634d864A1Ee1Ce3Ead9c)
  , ("FOURMEME", 0x9eb5d5731dff7c3c53cf6ba3c05fc1247c790ef9) ]

/-- pair_finder.rs `V3_FEE_TIERS`, in scan order. -/
def V3_FEE_TIERS : List Nat := [100, 500, 2500, 10000]

/-- The fee-tier loop of `find_v3_pairs` for one base token: `getPool` is the V3
factory call for that base (`none` models a call error, which is logged and
skipped; a zero address means no pool).  The first non-zero pool breaks the
loop. -/
def findV3PoolForBase (getPool : Nat → Option Address) : List Nat → Option Address
  | [] => none
  | fee :: rest =>
    match getPool fee with
    | some pool => if pool ≠ 0 then some pool else findV3PoolForBase getPool rest
    | none => findV3PoolForBase getPool rest

/-- pair_finder.rs `find_v3_pairs`: for each base token, scan the fee tiers in
order and record the first non-zero pool (with `is_v3 = true`). -/
def find_v3_pairs (token_address : Address) (base_tokens : List (String × Address))
    (getPool : Address → Nat → Option Address) : List PairInfo :=
  base_tokens.flatMap fun sb =>
    match findV3PoolForBase (getPool sb.2) V3_FEE_TIERS with
    | some pool =>
      [{ pair_address := pool, token := token_address, base_token := sb.2
         base_token_symbol := sb.1, is_v3 := true }]
    | none => []

/-- Spec-side reading of the tier scan: the head of the non-zero results of the
tier calls, in scan order. -/
def firstNonZeroPool (getPool : Nat → Option Address) (fees : List Nat) : Option Address :=
  ((fees.filterMap getPool).filter (· != 0)).head?

/-- pair_finder.rs `MIN_LIQUIDITY_USD`. -/
def MIN_LIQUIDITY_USD : ℚ := 5000

/-- Outcome of the DexScreener HTTP lookup: a parsed list of
(pair address, usd liquidity) entries, or a failure (unreachable endpoint or
unparseable body), which the code turns into an empty map with a warning. -/
inductive OracleOutcome where
  | ok (entries : List (Address × ℚ))
  | failed
  deriving DecidableEq

/-- The `pair_address_lowercase → usd_liquidity` map built from the oracle
response; later entries overwrite earlier ones as with `HashMap::insert`. -/
def liquidityMap : OracleOutcome → Address → Option ℚ
  | .ok entries, a =>
    entries.foldl (fun acc e => if e.1 = a then some e.2 else acc) none
  | .failed, _ => none

/-- pair_finder.rs `filter_by_liquidity`: keep a candidate when its map entry is
at least the threshold, or when the map has no entry for it. -/
def filter_by_liquidity (liq : Address → Option ℚ) (pairs : List PairInfo) :
    List PairInfo :=
  pairs.filter fun p =>
    match liq p.pair_address with
    | some usd => MIN_LIQUIDITY_USD ≤ usd
    | none => true

/-! ### Multi-token registry (multi_token_streamer.rs) and cancellation wiring

`CancellationToken` values are modelled by allocation indices; `tokio::spawn`
becomes explicit task records; the asynchronous supervisor body of `add_token`
is split into the two externally visible steps it performs: spawning the
subscription tasks (inside `streamer.start_with_migration_callback`, which
returns `Ok` right after) and the cleanup that removes the registry entry once
the `select!` completes. -/

/-- A cancellation-token identity (`tokio_util::sync::CancellationToken`). -/
abbrev TokId := Nat

/-- One spawned log-subscription task and the cancellation token its
`tokio::select!` loop listens on. -/
structure ChildTask where
  pairAddress : Address
  cancelToken : TokId
  deriving DecidableEq

/-- streamer.rs `start_with_migration_callback_and_cancel`, DEX path: spawn one
subscription task per discovered pair, each selecting on the given token, then
return `Ok`. -/
def startWithMigrationCallbackAndCancel (cancel_token : TokId) (pairs : List Address) :
    List ChildTask :=
  pairs.map fun p => { pairAddress := p, cancelToken := cancel_token }

/-- streamer.rs `start_with_migration_callback`: delegates to the cancel-aware
version with `CancellationToken::new()` — a freshly allocated token that is
never cancelled.  `fresh_token` is that allocation. -/
def startWithMigrationCallback (fresh_token : TokId) (pairs : List Address) :
    List ChildTask :=
  startWithMigrationCallbackAndCancel fresh_token pairs

/-- State of the `MultiTokenStreamer` registry together with the tasks and
cancellation flags of the running system. -/
structure RegistryState where
  tokens : List (Address × TokId)
  cancelled : List TokId
  children : List ChildTask
  nextTok : TokId
  deriving DecidableEq

def initState : RegistryState := { tokens := [], cancelled := [], children := [], nextTok := 0 }

/-- multi_token_streamer.rs `is_monitoring`: membership in the registry map. -/
def is_monitoring (s : RegistryState) (a : Address) : Bool :=
  s.tokens.any (·.1 == a)

/-- multi_token_streamer.rs `add_token` up to its return: error when already
present, else allocate the cancellation handle and insert the entry (the
spawned supervisor runs asynchronously afterwards). -/
def add_token (s : RegistryState) (a : Address) : Option RegistryState :=
  if is_monitoring s a then none
  else some { s with tokens := s.tokens ++ [(a, s.nextTok)], nextTok := s.nextTok + 1 }

/-- multi_token_streamer.rs `remove_token`: look the handle up and signal it;
error when the token is not in the registry.  The entry itself is only removed
by the supervisor's cleanup. -/
def remove_token (s : RegistryState) (a : Address) : Option RegistryState :=
  match s.tokens.find? (·.1 == a) with
  | some e => some { s with cancelled := s.cancelled ++ [e.2] }
  | none => none

/-- First half of the supervisor task spawned by `add_token`: the streamer's
`start_with_migration_callback` allocates a fresh token and spawns the
subscription tasks with it (`pairs` are the discovered pair addresses). -/
def supervisorSpawn (s : RegistryState) (pairs : List Address) : RegistryState :=
  { s with nextTok := s.nextTok + 1
           children := s.children ++ startWithMigrationCallback s.nextTok pairs }

/-- Second half of the supervisor task: `start_with_migration_callback` has
returned `Ok`, so the `select!` completes and the cleanup removes the entry. -/
def supervisorCleanup (s : RegistryState) (a : Address) : RegistryState :=
  { s with tokens := s.tokens.filter (·.1 != a) }

/-- The supervisor run to completion with no intervening cancellation. -/
def supervisorRun (s : RegistryState) (a : Address) (pairs : List Address) : RegistryState :=
  supervisorCleanup (supervisorSpawn s pairs) a

/-- A subscription task's `select!` can stop on the cancellation branch exactly
when the token it holds has been signalled (the stream branch stops it only when
the upstream ends). -/
def childSeesCancel (s : RegistryState) (c : ChildTask) : Bool :=
  s.cancelled.contains c.cancelToken

/-! ### Migration ordering (streamer.rs bonding-curve path)

Small-step model of `start_bonding_curve_with_migration_detection_and_callback`
for one token: the Transfer listener pushes bonding-curve swap events at any
time; the migration-handler task receives the PairCreated signal, emits the
MigrationEvent through the callback when one was supplied (and the re-run pair
finder found pairs), and only then spawns the DEX swap listeners, which are the
sole source of PancakeSwap-platform events for a curve-resident token. -/

inductive MigEv where
  | migration
  | swap (platform : Platform)
  deriving DecidableEq, Repr

inductive MigPhase where
  | awaitingSignal
  | signalled
  | migrationEmitted
  | dexLive
  | aborted
  deriving DecidableEq, Repr

/-- One scheduler step; `cb` says whether a migration callback was supplied and
`pairsFound` whether the re-run pair finder returned a non-empty list. -/
inductive MigStep (cb pairsFound : Bool) : MigPhase → List MigEv → MigPhase → Prop
  | curveTrade (ph : MigPhase) :
      MigStep cb pairsFound ph [MigEv.swap Platform.FourMemeBondingCurve] ph
  | recvSignal :
      MigStep cb pairsFound .awaitingSignal [] .signalled
  | emitMigration (hcb : cb = true) (hp : pairsFound = true) :
      MigStep cb pairsFound .signalled [MigEv.migration] .migrationEmitted
  | skipMigration (hcb : cb = false) (hp : pairsFound = true) :
      MigStep cb pairsFound .signalled [] .migrationEmitted
  | abortNoPairs (hp : pairsFound = false) :
      MigStep cb pairsFound .signalled [] .aborted
  | spawnDexListeners :
      MigStep cb pairsFound .migrationEmitted [] .dexLive
  | dexTrade :
      MigStep cb pairsFound .dexLive [MigEv.swap Platform.PancakeSwap] .dexLive

/-- Multi-step traces, accumulating the emitted events in order. -/
inductive MigTrace (cb pairsFound : Bool) : MigPhase → List MigEv → MigPhase → Prop
  | refl (ph : MigPhase) : MigTrace cb pairsFound ph [] ph
  | step {ph₁ ph₂ ph₃ : MigPhase} {evs₁ evs₂ : List MigEv} :
      MigStep cb pairsFound ph₁ evs₁ ph₂ → MigTrace cb pairsFound ph₂ evs₂ ph₃ →
      MigTrace cb pairsFound ph₁ (evs₁ ++ evs₂) ph₃

/-- Phases from which no DEX listener exists yet and (when the callback was
supplied) no MigrationEvent is pending-overdue. -/
def preDexPhase : MigPhase → Bool
  | .awaitingSignal => true
  | .signalled => true
  | .aborted => true
  | .migrationEmitted => false
  | .dexLive => false

/-! ### Sample inputs used to witness the decoder theorems -/

def sampleMeta : TokenMetadata := { name := "Token", symbol := "TKN", decimals := 18 }

def sampleV2Env : V2Env :=
  { token0 := 21, token1 := 22, token0Info := sampleMeta, token1Info := sampleMeta
    blockTimestamp := none }

def samplePair : PairInfo :=
  { pair_address := 77, token := 21, base_token := 22, base_token_symbol := "WBNB"
    is_v3 := false }

/-- A mined V2 Swap log with `amount0In = 0`, `amount1In = 2`, `amount0Out = 1`,
`amount1Out = 0`. -/
def sampleSwapLog : Log :=
  { address := 77
    topics := [SWAP_V2_TOPIC, 11, 12]
    data := List.replicate 63 0 ++ [2] ++ List.replicate 31 0 ++ [1] ++ List.replicate 32 0
    block_number := some 100
    transaction_hash := some 200 }

/-- The event `parse_swap_event` decodes `sampleSwapLog` to. -/
def sampleSwapEventOut : SwapEvent :=
  { transaction_hash := 200
    block_number := 100
    timestamp := none
    platform := .PancakeSwap
    trade_type := .Buy
    token := { address := 21, symbol := "TKN", amount := 1, decimals := 18 }
    base_token := { address := 22, symbol := "WBNB", amount := 2, decimals := 18 }
    price := { value := scaleAmount 2 18 / scaleAmount 1 18, base_token := "WBNB" }
    sender := 11
    recipient := 12
    pair_address := some 77
    bonding_curve_address := none }

def sampleCurveEnv : CurveEnv :=
  { tokenInfo := sampleMeta, txValue := some 4, receipt := none, blockTimestamp := none }

/-- A mined Transfer log whose `from` topic is the launchpad address 5, carrying
3 tokens. -/
def sampleTransferLog : Log :=
  { address := 9
    topics := [TRANSFER_TOPIC, 5, 7]
    data := [3]
    block_number := some 10
    transaction_hash := some 11 }

/-- The event `parse_bonding_curve_event` decodes `sampleTransferLog` to
(launchpad address 5, token address 9). -/
def sampleCurveEventOut : SwapEvent :=
  { transaction_hash := 11
    block_number := 10
    timestamp := none
    platform := .FourMemeBondingCurve
    trade_type := .Buy
    token := { address := 9, symbol := "TKN", amount := 3, decimals := 18 }
    base_token := { address := 0, symbol := "BNB", amount := 4, decimals := 18 }
    price := { value := scaleAmount 4 18 / scaleAmount 3 18, base_token := "BNB" }
    sender := 5
    recipient := 7
    pair_address := none
    bonding_curve_address := some 5 }

/-! ### Spec-side reading of the bonding-curve base-amount recovery -/

/-- Candidate words of one receipt log, offset 128 first and then offset 64, as
far as the payload reaches. -/
def logCandidateWords (l : ReceiptLog) : List Nat :=
  (if 160 ≤ l.data.length then [wordAt l.data 128] else []) ++
  (if 96 ≤ l.data.length then [wordAt l.data 64] else [])

/-- The first candidate inside the sanity interval over the launchpad-emitted
receipt logs in order, or 0 when none exists. -/
def specFirstSaneValue (curve : Address) (logs : List ReceiptLog) : Nat :=
  (((logs.filter (·.address == curve)).flatMap logCandidateWords).find?
    fun v => decide (inSaneRange v)).getD 0

/-- The Buy-side base-amount recovery as the spec words it: the transaction's
top-level value when non-zero, else the first sane receipt candidate, else 0. -/
def specBuyRecovery (env : CurveEnv) (curve : Address) : Nat :=
  if env.txValue.getD 0 ≠ 0 then env.txValue.getD 0
  else
    match env.receipt with
    | some logs => specFirstSaneValue curve logs
    | none => 0

/-! ### Theorems -/

set_option maxRecDepth 8192

/-- C4: for every V2 Swap log decoded by `parse_swap_event`, when the amount_out
on the watched token's side (amount0Out at data offset 64 when the watched token
is token0, amount1Out at offset 96 otherwise) is positive the event is a Buy
whose token amount is that amount_out and whose base amount is the opposite
side's amount_in; otherwise it is a Sell whose token amount is the watched
side's amount_in and whose base amount is the opposite side's amount_out. -/
theorem c4_trade_type_and_amounts (env : V2Env) (log : Log) (pair_info : PairInfo)
    (e : SwapEvent) (h : parse_swap_event env log pair_info = .ok e) :
    (env.token0 = pair_info.token →
      (0 < wordAt log.data 64 →
        e.trade_type = .Buy ∧
        e.token.amount = wordAt log.data 64 ∧
        e.base_token.amount = wordAt log.data 32) ∧
      (wordAt log.data 64 = 0 →
        e.trade_type = .Sell ∧
        e.token.amount = wordAt log.data 0 ∧
        e.base_token.amount = wordAt log.data 96)) ∧
    (env.token0 ≠ pair_info.token →
      (0 < wordAt log.data 96 →
        e.trade_type = .Buy ∧
        e.token.amount = wordAt log.data 96 ∧
        e.base_token.amount = wordAt log.data 0) ∧
      (wordAt log.data 96 = 0 →
        e.trade_type = .Sell ∧
        e.token.amount = wordAt log.data 32 ∧
        e.base_token.amount = wordAt log.data 64)) := by
  unfold parse_swap_event at h
  split at h
  case isFalse => exact absurd h (by simp)
  case isTrue hcond =>
    split at h
    case h_1 => exact absurd h (by simp)
    case h_2 bn hbn =>
      split at h
      case h_1 => exact absurd h (by simp)
      case h_2 txh htxh =>
        injection h with h2
        subst h2
        refine ⟨fun h0 => ?_, fun h0 => ?_⟩
        · have hb : (env.token0 == pair_info.token) = true := beq_iff_eq.mpr h0
          constructor
          · intro hpos
            simp [selectSides, hb, hpos]
          · intro hzero
            simp [selectSides, hb, hzero]
        · have hb : (env.token0 == pair_info.token) = false := by
            simpa using h0
          constructor
          · intro hpos
            simp [selectSides, hb, hpos]
          · intro hzero
            simp [selectSides, hb, hzero]

/-- C4 witness: the sample Swap log decodes to a Buy of 1 token against 2 base
units. -/
theorem c4_trade_type_and_amounts_witness :
    sampleSwapEventOut.trade_type = TradeType.Buy ∧
    sampleSwapEventOut.token.amount = wordAt sampleSwapLog.data 64 ∧
    sampleSwapEventOut.base_token.amount = wordAt sampleSwapLog.data 32 :=
  ((c4_trade_type_and_amounts sampleV2Env sampleSwapLog samplePair sampleSwapEventOut
    (by rfl)).1 (by decide)).1 (by decide)

/-- Characterization of a successful `parse_bonding_curve_event` run that emits
an event: the log is mined, the Transfer touches the launchpad, and the event is
exactly the record the decoder builds. -/
theorem parse_bonding_curve_ok_some {env : CurveEnv} {log : Log} {tok curve : Address}
    {e : SwapEvent} (h : parse_bonding_curve_event env log tok curve = .ok (some e)) :
    ∃ txh bn tt,
      log.transaction_hash = some txh ∧ log.block_number = some bn ∧
      (if addrOfWord (log.topics.getD 1 0) = curve then some TradeType.Buy
       else if addrOfWord (log.topics.getD 2 0) = curve then some TradeType.Sell
       else none) = some tt ∧
      e = { transaction_hash := txh
            block_number := bn
            timestamp := env.blockTimestamp.map (· * 1000)
            platform := .FourMemeBondingCurve
            trade_type := tt
            token := { address := tok, symbol := env.tokenInfo.symbol
                       amount := beBytes log.data, decimals := env.tokenInfo.decimals }
            base_token := { address := 0, symbol := "BNB"
                            amount := if tt = TradeType.Buy then buyBnbAmount env curve
                                      else sellBnbAmount env curve
                            decimals := 18 }
            price := { value :=
                        if 0 < beBytes log.data then
                          scaleAmount (if tt = TradeType.Buy then buyBnbAmount env curve
                                       else sellBnbAmount env curve) 18 /
                            scaleAmount (beBytes log.data) env.tokenInfo.decimals
                        else 0
                       base_token := "BNB" }
            sender := addrOfWord (log.topics.getD 1 0)
            recipient := addrOfWord (log.topics.getD 2 0)
            pair_address := none
            bonding_curve_address := some curve } := by
  unfold parse_bonding_curve_event at h
  split at h
  case isTrue => exact absurd h (by simp)
  case isFalse hlen =>
    split at h
    case isTrue => exact absurd h (by simp)
    case isFalse hdata =>
      dsimp only at h
      rcases hfb : (if addrOfWord (log.topics.getD 1 0) = curve then some TradeType.Buy
                    else if addrOfWord (log.topics.getD 2 0) = curve then some TradeType.Sell
                    else none) with _ | tt
      · rw [hfb] at h
        exact absurd h (by simp)
      · rw [hfb] at h
        split at h
        case h_1 => exact absurd h (by simp)
        case h_2 tt2 htt2 =>
          split at h
          case h_1 => exact absurd h (by simp)
          case h_2 txh htxh =>
            split at h
            case h_1 => exact absurd h (by simp)
            case h_2 bn hbn =>
              injection htt2 with htt3
              subst htt3
              injection h with h2
              injection h2 with h3
              exact ⟨txh, bn, tt, htxh, hbn, rfl, h3.symm⟩

/-- C8: in every event either decoder emits, when the token amount is positive
the price value is the base amount divided by the token amount after both are
scaled by their decimals, and when the token amount is zero the price value is
zero. -/
theorem c8_price_is_scaled_ratio :
    (∀ (env : V2Env) (log : Log) (pair_info : PairInfo) (e : SwapEvent),
      parse_swap_event env log pair_info = .ok e →
        (0 < e.token.amount →
          e.price.value =
            scaleAmount e.base_token.amount e.base_token.decimals /
              scaleAmount e.token.amount e.token.decimals) ∧
        (e.token.amount = 0 → e.price.value = 0)) ∧
    (∀ (env : CurveEnv) (log : Log) (tok curve : Address) (e : SwapEvent),
      parse_bonding_curve_event env log tok curve = .ok (some e) →
        (0 < e.token.amount →
          e.price.value =
            scaleAmount e.base_token.amount e.base_token.decimals /
              scaleAmount e.token.amount e.token.decimals) ∧
        (e.token.amount = 0 → e.price.value = 0)) := by
  constructor
  · intro env log pair_info e h
    unfold parse_swap_event at h
    split at h
    case isFalse => exact absurd h (by simp)
    case isTrue hcond =>
      split at h
      case h_1 => exact absurd h (by simp)
      case h_2 bn hbn =>
        split at h
        case h_1 => exact absurd h (by simp)
        case h_2 txh htxh =>
          injection h with h2
          subst h2
          constructor
          · intro hpos
            simp only at hpos ⊢
            simp [hpos]
          · intro hzero
            simp only at hzero ⊢
            simp [hzero]
  · intro env log tok curve e h
    obtain ⟨txh, bn, tt, htxh, hbn, hfb, he⟩ := parse_bonding_curve_ok_some h
    subst he
    constructor
    · intro hpos
      simp only at hpos ⊢
      simp [hpos]
    · intro hzero
      simp only at hzero ⊢
      simp [hzero]

/-- C8 witness: the sample V2 swap has price 2 base per token. -/
theorem c8_price_is_scaled_ratio_witness :
    sampleSwapEventOut.price.value =
      scaleAmount sampleSwapEventOut.base_token.amount sampleSwapEventOut.base_token.decimals /
        scaleAmount sampleSwapEventOut.token.amount sampleSwapEventOut.token.decimals :=
  (c8_price_is_scaled_ratio.1 sampleV2Env sampleSwapLog samplePair sampleSwapEventOut
    (by rfl)).1 (by decide)

/-- C9: every event `parse_swap_event` emits carries `pair_address = Some` and
`bonding_curve_address = None`, every event `parse_bonding_curve_event` emits
carries `bonding_curve_address = Some` and `pair_address = None`, so each
emitted event has exactly one non-null venue address. -/
theorem c9_exactly_one_venue_address :
    (∀ (env : V2Env) (log : Log) (pair_info : PairInfo) (e : SwapEvent),
      parse_swap_event env log pair_info = .ok e →
        e.pair_address = some pair_info.pair_address ∧
        e.bonding_curve_address = none ∧
        e.pair_address.isSome ≠ e.bonding_curve_address.isSome) ∧
    (∀ (env : CurveEnv) (log : Log) (tok curve : Address) (e : SwapEvent),
      parse_bonding_curve_event env log tok curve = .ok (some e) →
        e.pair_address = none ∧
        e.bonding_curve_address = some curve ∧
        e.pair_address.isSome ≠ e.bonding_curve_address.isSome) := by
  constructor
  · intro env log pair_info e h
    unfold parse_swap_event at h
    split at h
    case isFalse => exact absurd h (by simp)
    case isTrue hcond =>
      split at h
      case h_1 => exact absurd h (by simp)
      case h_2 bn hbn =>
        split at h
        case h_1 => exact absurd h (by simp)
        case h_2 txh htxh =>
          injection h with h2
          subst h2
          exact ⟨rfl, rfl, by simp⟩
  · intro env log tok curve e h
    obtain ⟨txh, bn, tt, htxh, hbn, hfb, he⟩ := parse_bonding_curve_ok_some h
    subst he
    exact ⟨rfl, rfl, by simp⟩

/-- C9 witness: the sample events carry exactly the expected venue addresses. -/
theorem c9_exactly_one_venue_address_witness :
    sampleSwapEventOut.pair_address = some samplePair.pair_address ∧
    sampleSwapEventOut.bonding_curve_address = none :=
  let r := c9_exactly_one_venue_address.1 sampleV2Env sampleSwapLog samplePair
    sampleSwapEventOut (by rfl)
  ⟨r.1, r.2.1⟩

/-- The break-on-first-hit receipt scan computes the first sane candidate of
the flattened candidate list the spec describes. -/
theorem scanReceiptLogs_eq_specFirst (curve : Address) :
    ∀ logs : List ReceiptLog, scanReceiptLogs curve logs = specFirstSaneValue curve logs := by
  intro logs
  induction logs with
  | nil => rfl
  | cons l ls ih =>
    unfold specFirstSaneValue at ih ⊢
    unfold scanReceiptLogs
    by_cases ha : l.address = curve
    · rw [if_pos ha]
      have hfil : (l :: ls).filter (·.address == curve) = l :: ls.filter (·.address == curve) := by
        simp [List.filter_cons, ha]
      rw [hfil, List.flatMap_cons, List.find?_append]
      unfold logCandidateWords
      by_cases h160 : 160 ≤ l.data.length
      · rw [if_pos h160, List.singleton_append]
        by_cases hs1 : inSaneRange (wordAt l.data 128)
        · rw [if_pos ⟨h160, hs1⟩,
            List.find?_cons_of_pos _ (by simpa using hs1)]
          rfl
        · rw [if_neg fun hc => hs1 hc.2,
            List.find?_cons_of_neg _ (by simpa using hs1)]
          have h96 : 96 ≤ l.data.length := by omega
          rw [if_pos h96]
          by_cases hs2 : inSaneRange (wordAt l.data 64)
          · rw [if_pos ⟨h96, hs2⟩,
              List.find?_cons_of_pos _ (by simpa using hs2)]
            rfl
          · rw [if_neg fun hc => hs2 hc.2,
              List.find?_cons_of_neg _ (by simpa using hs2), List.find?_nil,
              Option.none_or, ih]
            rfl
      · rw [if_neg fun hc => h160 hc.1, if_neg h160, List.nil_append]
        by_cases h96 : 96 ≤ l.data.length
        · rw [if_pos h96]
          by_cases hs2 : inSaneRange (wordAt l.data 64)
          · rw [if_pos ⟨h96, hs2⟩,
              List.find?_cons_of_pos _ (by simpa using hs2)]
            rfl
          · rw [if_neg fun hc => hs2 hc.2,
              List.find?_cons_of_neg _ (by simpa using hs2), List.find?_nil,
              Option.none_or, ih]
            rfl
        · rw [if_neg fun hc => h96 hc.1, if_neg h96, List.find?_nil, Option.none_or, ih]
          rfl
    · rw [if_neg ha, ih]
      have hfil : (l :: ls).filter (·.address == curve) = ls.filter (·.address == curve) := by
        simp [List.filter_cons, ha]
      rw [hfil]

/-- The Buy-side recovery of the decoder equals the spec-side description. -/
theorem buyBnbAmount_eq_spec (env : CurveEnv) (curve : Address) :
    buyBnbAmount env curve = specBuyRecovery env curve := by
  unfold buyBnbAmount specBuyRecovery
  by_cases h0 : env.txValue.getD 0 = 0
  · cases hr : env.receipt with
    | none => simp [h0]
    | some logs => simp [h0, scanReceiptLogs_eq_specFirst]
  · simp [h0]

/-- C5: for a bonding-curve Buy event the base-side amount is the transaction's
top-level value when that value is non-zero; when it is zero it is the first
value in the open interval (0, 1000·10^18) found by scanning the receipt's
launchpad-emitted logs, reading offset 128..160 first and then 64..96 per log;
when no such value exists (or the receipt is missing) it is 0. -/
theorem c5_buy_base_amount (env : CurveEnv) (log : Log) (tok curve : Address)
    (e : SwapEvent) (h : parse_bonding_curve_event env log tok curve = .ok (some e))
    (hb : e.trade_type = .Buy) :
    e.base_token.amount = specBuyRecovery env curve := by
  obtain ⟨txh, bn, tt, htxh, hbn, hfb, he⟩ := parse_bonding_curve_ok_some h
  subst he
  simp only at hb ⊢
  subst hb
  rw [if_pos rfl]
  exact buyBnbAmount_eq_spec env curve

/-- C5 witness: the sample Buy carries the transaction's non-zero value 4. -/
theorem c5_buy_base_amount_witness :
    sampleCurveEventOut.base_token.amount = specBuyRecovery sampleCurveEnv 5 :=
  c5_buy_base_amount sampleCurveEnv sampleTransferLog 9 5 sampleCurveEventOut
    (by rfl) (by rfl)

/-- C10: with the implicit precondition that the log is mined (`block_number`
and `transaction_hash` present) and carries at least 2 topics for a V2 Swap and
at least 3 for a Transfer, the unwrap/index panic branches of both decoders are
unreachable; and there are logs missing one of those fields on which each
decoder panics instead of returning an error. -/
theorem c10_decoder_totality_precondition :
    (∀ (env : V2Env) (log : Log) (pair_info : PairInfo),
      log.block_number.isSome → log.transaction_hash.isSome → 2 ≤ log.topics.length →
      ∀ k, parse_swap_event env log pair_info ≠ .panicked k) ∧
    (∀ (env : CurveEnv) (log : Log) (tok curve : Address),
      log.block_number.isSome → log.transaction_hash.isSome → 3 ≤ log.topics.length →
      ∀ k, k ≠ PanicKind.fromBigEndian →
        parse_bonding_curve_event env log tok curve ≠ .panicked k) ∧
    parse_swap_event sampleV2Env { sampleSwapLog with block_number := none } samplePair =
      .panicked .unwrapBlockNumber ∧
    parse_bonding_curve_event sampleCurveEnv
      { address := 9, topics := [TRANSFER_TOPIC, 5], data := [3]
        block_number := some 10, transaction_hash := some 11 } 9 5 =
      .panicked .indexTopics ∧
    parse_bonding_curve_event sampleCurveEnv
      { sampleTransferLog with transaction_hash := none } 9 5 =
      .panicked .unwrapTxHash := by
  refine ⟨?_, ?_, by rfl, by rfl, by rfl⟩
  · intro env log pair_info h1 h2 _h3 k
    obtain ⟨bn, hbn⟩ := Option.isSome_iff_exists.mp h1
    obtain ⟨txh, htx⟩ := Option.isSome_iff_exists.mp h2
    unfold parse_swap_event
    rw [hbn, htx]
    split <;> simp
  · intro env log tok curve h1 h2 h3 k hk
    obtain ⟨bn, hbn⟩ := Option.isSome_iff_exists.mp h1
    obtain ⟨txh, htx⟩ := Option.isSome_iff_exists.mp h2
    unfold parse_bonding_curve_event
    have hlen : ¬ log.topics.length < 3 := by omega
    rw [if_neg hlen]
    by_cases hdata : 32 < log.data.length
    · rw [if_pos hdata]
      intro hcon
      injection hcon with hc
      exact hk hc.symm
    · rw [if_neg hdata]
      dsimp only
      rcases hfb : (if addrOfWord (log.topics.getD 1 0) = curve then some TradeType.Buy
                    else if addrOfWord (log.topics.getD 2 0) = curve then some TradeType.Sell
                    else none) with _ | tt
      · simp
      · rw [htx, hbn]
        simp

/-- C10 witness: on the mined sample logs neither decoder panics. -/
theorem c10_decoder_totality_precondition_witness :
    parse_swap_event sampleV2Env sampleSwapLog samplePair ≠ .panicked .unwrapBlockNumber ∧
    parse_bonding_curve_event sampleCurveEnv sampleTransferLog 9 5 ≠ .panicked .indexTopics :=
  ⟨c10_decoder_totality_precondition.1 sampleV2Env sampleSwapLog samplePair
      (by decide) (by decide) (by decide) _,
    c10_decoder_totality_precondition.2.1 sampleCurveEnv sampleTransferLog 9 5
      (by decide) (by decide) (by decide) _ (by decide)⟩

/-- The tier loop returns the first non-zero pool in scan order. -/
theorem findV3PoolForBase_eq_first (getPool : Nat → Option Address) :
    ∀ fees, findV3PoolForBase getPool fees = firstNonZeroPool getPool fees := by
  intro fees
  induction fees with
  | nil => rfl
  | cons fee rest ih =>
    unfold findV3PoolForBase firstNonZeroPool
    unfold firstNonZeroPool at ih
    cases hg : getPool fee with
    | none => simp only [List.filterMap_cons, hg, ih]
    | some pool =>
      by_cases hz : pool = 0
      · simp [List.filterMap_cons, List.filter_cons, hg, hz, ih]
      · simp [List.filterMap_cons, List.filter_cons, hg, hz]

/-- Every recorded V3 pair's base token comes from the scanned base list. -/
theorem mem_find_v3_pairs_base {token : Address} {bases : List (String × Address)}
    {getPool : Address → Nat → Option Address} {p : PairInfo}
    (hp : p ∈ find_v3_pairs token bases getPool) : p.base_token ∈ bases.map Prod.snd := by
  unfold find_v3_pairs at hp
  rw [List.mem_flatMap] at hp
  obtain ⟨sb, hsb, hmem⟩ := hp
  cases hfind : findV3PoolForBase (getPool sb.2) V3_FEE_TIERS with
  | none => rw [hfind] at hmem; simp at hmem
  | some pool =>
    rw [hfind] at hmem
    simp only [List.mem_singleton] at hmem
    subst hmem
    exact List.mem_map_of_mem Prod.snd hsb

/-- For a base token appearing once in the scanned list, the recorded V3 pairs
for it are exactly the first non-zero tier's pool (or nothing). -/
theorem find_v3_pairs_filter_base (token : Address)
    (getPool : Address → Nat → Option Address) :
    ∀ (bases : List (String × Address)) (sym : String) (b : Address),
      (sym, b) ∈ bases → (bases.map Prod.snd).Nodup →
      (find_v3_pairs token bases getPool).filter (·.base_token == b) =
        (match firstNonZeroPool (getPool b) V3_FEE_TIERS with
         | some pool => [{ pair_address := pool, token := token, base_token := b
                           base_token_symbol := sym, is_v3 := true }]
         | none => []) := by
  intro bases
  induction bases with
  | nil => intro sym b hmem _; simp at hmem
  | cons sb rest ih =>
    intro sym b hmem hnd
    have hnd2 : sb.2 ∉ rest.map Prod.snd ∧ (rest.map Prod.snd).Nodup := by
      simpa [List.nodup_cons] using hnd
    have hsplit : find_v3_pairs token (sb :: rest) getPool =
        (match findV3PoolForBase (getPool sb.2) V3_FEE_TIERS with
         | some pool => [{ pair_address := pool, token := token, base_token := sb.2
                           base_token_symbol := sb.1, is_v3 := true }]
         | none => []) ++ find_v3_pairs token rest getPool := by
      unfold find_v3_pairs
      rw [List.flatMap_cons]
    rw [hsplit, List.filter_append]
    rcases List.mem_cons.mp hmem with heq | hrest
    · have hb : b = sb.2 := by rw [← heq]
      have hsym : sym = sb.1 := by rw [← heq]
      subst hb
      subst hsym
      have hrestnil :
          (find_v3_pairs token rest getPool).filter (·.base_token == sb.2) = [] := by
        rw [List.filter_eq_nil_iff]
        intro p hp
        have hpb := mem_find_v3_pairs_base hp
        simp only [beq_iff_eq]
        intro hcon
        exact hnd2.1 (hcon ▸ hpb)
      rw [hrestnil, List.append_nil, findV3PoolForBase_eq_first]
      cases hfind : firstNonZeroPool (getPool sb.2) V3_FEE_TIERS with
      | none => simp
      | some pool => simp [List.filter_cons]
    · have hbne : sb.2 ≠ b := by
        intro hcon
        exact hnd2.1 (hcon ▸ List.mem_map.mpr ⟨(sym, b), hrest, rfl⟩)
      have hheadnil :
          ((match findV3PoolForBase (getPool sb.2) V3_FEE_TIERS with
            | some pool => [{ pair_address := pool, token := token, base_token := sb.2
                              base_token_symbol := sb.1, is_v3 := true }]
            | none => []) : List PairInfo).filter (·.base_token == b) = [] := by
        cases hfind : findV3PoolForBase (getPool sb.2) V3_FEE_TIERS with
        | none => simp
        | some pool => simp [List.filter_cons, hbne]
      rw [hheadnil, List.nil_append]
      exact ih sym b hrest hnd2.2

/-- C6: the V3 scan tries the fee tiers in the order 100, 500, 2500, 10000 and
records at most one pool per (token, base): the pool of the first tier whose
factory call returns a non-zero address; later tiers are never recorded. -/
theorem c6_first_nonzero_tier_only :
    V3_FEE_TIERS = [100, 500, 2500, 10000] ∧
    ∀ (token : Address) (getPool : Address → Nat → Option Address) (sym : String)
      (b : Address), (sym, b) ∈ get_base_tokens →
      (find_v3_pairs token get_base_tokens getPool).filter (·.base_token == b) =
        (match firstNonZeroPool (getPool b) V3_FEE_TIERS with
         | some pool => [{ pair_address := pool, token := token, base_token := b
                           base_token_symbol := sym, is_v3 := true }]
         | none => []) := by
  refine ⟨rfl, ?_⟩
  intro token getPool sym b hmem
  exact find_v3_pairs_filter_base token getPool get_base_tokens sym b hmem (by decide)

/-- A factory oracle with pools at tiers 500 and 2500 against USDT. -/
def sampleGetPool : Address → Nat → Option Address := fun b fee =>
  if b == 0x55d398326f99059fF775485246999027B3197955 then
    (if fee == 500 then some 43690 else if fee == 2500 then some 48059 else some 0)
  else some 0

/-- C6 witness: with non-zero pools at tiers 500 and 2500, only the tier-500
pool is recorded for USDT. -/
theorem c6_first_nonzero_tier_only_witness :
    (find_v3_pairs 9 get_base_tokens sampleGetPool).filter
      (·.base_token == 0x55d398326f99059fF775485246999027B3197955) =
      (match firstNonZeroPool (sampleGetPool 0x55d398326f99059fF775485246999027B3197955)
          V3_FEE_TIERS with
       | some pool =>
        [{ pair_address := pool, token := 9
           base_token := 0x55d398326f99059fF775485246999027B3197955
           base_token_symbol := "USDT", is_v3 := true }]
       | none => []) :=
  c6_first_nonzero_tier_only.2 9 sampleGetPool "USDT"
    0x55d398326f99059fF775485246999027B3197955 (by decide)

/-- C7: a candidate pool passes the liquidity gate exactly when the oracle map
has an entry of at least 5000 USD for it or has no entry at all (in particular
an unreachable or unparseable oracle yields the empty map, so every candidate
passes); an entry below 5000 USD excludes the pool. -/
theorem c7_liquidity_gate :
    (∀ (oc : OracleOutcome) (pairs : List PairInfo) (p : PairInfo),
      p ∈ filter_by_liquidity (liquidityMap oc) pairs ↔
        p ∈ pairs ∧
          ((∃ usd, liquidityMap oc p.pair_address = some usd ∧ MIN_LIQUIDITY_USD ≤ usd) ∨
            liquidityMap oc p.pair_address = none)) ∧
    ∀ a : Address, liquidityMap .failed a = none := by
  constructor
  · intro oc pairs p
    unfold filter_by_liquidity
    rw [List.mem_filter]
    cases hl : liquidityMap oc p.pair_address with
    | none => simp [hl]
    | some usd => simp [hl]
  · intro a
    rfl

/-- C7 witness: a pool with 6000 USD oracle liquidity is kept. -/
theorem c7_liquidity_gate_witness :
    samplePair ∈
      filter_by_liquidity (liquidityMap (OracleOutcome.ok [(77, 6000)])) [samplePair] :=
  (c7_liquidity_gate.1 (OracleOutcome.ok [(77, 6000)]) [samplePair] samplePair).mpr
    ⟨List.mem_singleton.mpr rfl, Or.inl ⟨6000, rfl, by norm_num [MIN_LIQUIDITY_USD]⟩⟩

/-- C1 (refuting evaluation): after `add_token` the supervisor's
`start_with_migration_callback` spawns every subscription task on a freshly
created token (id 1), not on the registry handle (id 0); signalling the stored
handle through `remove_token` removes the entry once the supervisor completes,
but no subscription task ever observes the signal, so none of them terminates
through it. -/
theorem c1_cancel_signal_misses_children (a : Address) (pairs : List Address)
    (hne : pairs ≠ []) :
    ∃ s1 s2 : RegistryState,
      add_token initState a = some s1 ∧
      remove_token (supervisorSpawn s1 pairs) a = some s2 ∧
      is_monitoring (supervisorCleanup s2 a) a = false ∧
      (supervisorCleanup s2 a).children ≠ [] ∧
      ∀ c ∈ (supervisorCleanup s2 a).children,
        childSeesCancel (supervisorCleanup s2 a) c = false := by
  refine ⟨{ tokens := [(a, 0)], cancelled := [], children := [], nextTok := 1 },
    { tokens := [(a, 0)], cancelled := [0]
      children := pairs.map (fun p => { pairAddress := p, cancelToken := 1 }), nextTok := 2 },
    rfl, ?_, ?_, ?_, ?_⟩
  · unfold remove_token supervisorSpawn startWithMigrationCallback
      startWithMigrationCallbackAndCancel
    rw [List.find?_cons_of_pos _ (by simp)]
    rfl
  · unfold supervisorCleanup is_monitoring
    simp [List.filter_cons]
  · unfold supervisorCleanup
    intro hcon
    exact hne (by simpa using hcon)
  · intro c hc
    unfold supervisorCleanup at hc
    simp only [List.mem_map] at hc
    obtain ⟨p, hp, hcp⟩ := hc
    subst hcp
    rfl

/-- C1 witness: the refutation at token address 7 with one discovered pair. -/
theorem c1_cancel_signal_misses_children_witness :
    ∃ s1 s2 : RegistryState,
      add_token initState 7 = some s1 ∧
      remove_token (supervisorSpawn s1 [42]) 7 = some s2 ∧
      is_monitoring (supervisorCleanup s2 7) 7 = false ∧
      (supervisorCleanup s2 7).children ≠ [] ∧
      ∀ c ∈ (supervisorCleanup s2 7).children,
        childSeesCancel (supervisorCleanup s2 7) c = false :=
  c1_cancel_signal_misses_children 7 [42] (by decide)

/-- C2 (refuting evaluation): `add_token` makes `is_monitoring` true, but the
supervisor completes its select as soon as the streamer's start returns - right
after spawning the subscription tasks - and removes the entry, so with no
intervening `remove_token` the registry reports false while the subscription
tasks are still live. -/
theorem c2_registry_entry_dropped_early (a : Address) (pairs : List Address)
    (hne : pairs ≠ []) :
    ∃ s1 : RegistryState,
      add_token initState a = some s1 ∧
      is_monitoring s1 a = true ∧
      is_monitoring (supervisorRun s1 a pairs) a = false ∧
      (supervisorRun s1 a pairs).children ≠ [] := by
  refine ⟨{ tokens := [(a, 0)], cancelled := [], children := [], nextTok := 1 },
    rfl, ?_, ?_, ?_⟩
  · unfold is_monitoring
    simp
  · unfold supervisorRun supervisorCleanup supervisorSpawn is_monitoring
    simp [List.filter_cons]
  · unfold supervisorRun supervisorCleanup supervisorSpawn startWithMigrationCallback
      startWithMigrationCallbackAndCancel
    intro hcon
    exact hne (by simpa using hcon)

/-- C2 witness: the refutation at token address 7 with one discovered pair. -/
theorem c2_registry_entry_dropped_early_witness :
    ∃ s1 : RegistryState,
      add_token initState 7 = some s1 ∧
      is_monitoring s1 7 = true ∧
      is_monitoring (supervisorRun s1 7 [42]) 7 = false ∧
      (supervisorRun s1 7 [42]).children ≠ [] :=
  c2_registry_entry_dropped_early 7 [42] (by decide)

/-- In any trace starting from a phase with no DEX listener spawned yet, when a
migration callback was supplied every PancakeSwap swap emission is preceded by
the migration emission. -/
theorem migTrace_pancake_after_migration {cb pairsFound : Bool} {ph₁ ph₂ : MigPhase}
    {evs : List MigEv} (h : MigTrace cb pairsFound ph₁ evs ph₂) :
    cb = true → preDexPhase ph₁ = true →
    ∀ pre post, evs = pre ++ MigEv.swap Platform.PancakeSwap :: post →
      MigEv.migration ∈ pre := by
  induction h with
  | refl ph =>
    intro _ _ pre post heq
    exact absurd heq (by simp)
  | step hstep htr ih =>
    intro hcb hpre pre post heq
    cases hstep with
    | curveTrade ph =>
      cases pre with
      | nil => simp at heq
      | cons x pre2 =>
        injection heq with hx htail
        subst hx
        exact List.mem_cons_of_mem _ (ih hcb hpre pre2 post (by simpa using htail))
    | recvSignal =>
      exact ih hcb rfl pre post (by simpa using heq)
    | emitMigration hcb2 hp =>
      cases pre with
      | nil => simp at heq
      | cons x pre2 =>
        injection heq with hx htail
        subst hx
        exact List.mem_cons_self _ _
    | skipMigration hcb2 hp =>
      rw [hcb] at hcb2
      exact absurd hcb2 (by simp)
    | abortNoPairs hp =>
      exact ih hcb rfl pre post (by simpa using heq)
    | spawnDexListeners =>
      simp [preDexPhase] at hpre
    | dexTrade =>
      simp [preDexPhase] at hpre

/-- C3: for a bonding-curve token whose streamer runs with a migration callback,
in every scheduling of the migration-handler model the MigrationEvent emission
strictly precedes every PancakeSwap-platform SwapEvent emission (the bonding
curve listener itself only emits FourMemeBondingCurve events). -/
theorem c3_migration_before_pancakeswap_swaps {pairsFound : Bool} {evs : List MigEv}
    {ph : MigPhase} (h : MigTrace true pairsFound .awaitingSignal evs ph) :
    ∀ pre post, evs = pre ++ MigEv.swap Platform.PancakeSwap :: post →
      MigEv.migration ∈ pre :=
  migTrace_pancake_after_migration h rfl rfl

/-- A concrete run: a curve trade, the PairCreated signal, the migration
emission, the listener spawn, one DEX trade. -/
def c3SampleTrace :
    MigTrace true true .awaitingSignal
      ([MigEv.swap Platform.FourMemeBondingCurve] ++
        ([] ++ ([MigEv.migration] ++ ([] ++ ([MigEv.swap Platform.PancakeSwap] ++ [])))))
      .dexLive :=
  .step (.curveTrade _)
    (.step .recvSignal
      (.step (.emitMigration rfl rfl)
        (.step .spawnDexListeners
          (.step .dexTrade (.refl _)))))

/-- C3 witness: in the concrete run the migration emission sits before the
PancakeSwap swap. -/
theorem c3_migration_before_pancakeswap_swaps_witness :
    MigEv.migration ∈ [MigEv.swap Platform.FourMemeBondingCurve, MigEv.migration] :=
  c3_migration_before_pancakeswap_swaps c3SampleTrace
    [MigEv.swap Platform.FourMemeBondingCurve, MigEv.migration] [] rfl

end BscStreamer
